import Mathlib

/-!
Verification development for the MoonlightMUD authoritative server.

The definitions below are a shallow embedding of `src/server/protocol.py`
(class `MoonlapseProtocol`).  Python machine state (the Django rows, the
per-connection queues, the live-instance map `server.instances`, the
deferred-callback scheduler) is passed explicitly; each Lean function mirrors
one Python method statement by statement.  The server object itself
(`mlserver`) is not part of `src/`; the few of its methods the protocol calls
are modelled from the spec and marked as such in their doc comments.
-/

namespace Moonlight

/-- `OOB` from `protocol.py` line 22: all instances with `y == OOB` are awaiting respawn. -/
def OOB : Int := -32

/-- `models.Entity`: identity, typename and display name. -/
structure Entity where
  pk : Nat
  typename : String
  name : String
  deriving DecidableEq, Repr

/-- `models.InstancedEntity`: a live placement of an `Entity` in a room.
`respawnTime = 0` models a null/zero `respawn_time` (both falsy in Python). -/
structure InstancedEntity where
  pk : Nat
  entity : Entity
  roomId : Nat
  y : Int
  x : Int
  amount : Nat
  respawnTime : Nat
  deriving DecidableEq, Repr

/-- `models.Portal`: link target of a portal entity. -/
structure Portal where
  linkedroom : Nat
  linkedy : Int
  linkedx : Int
  deriving DecidableEq, Repr

/-- The packet kinds the embedded methods construct (`networking.packet`).
`serverModelInstanceP`/`serverModelInventoryItemP` carry just the identifying
payload the claims inspect. -/
inductive Packet where
  | okP
  | deny (reason : String)
  | serverLog (text : String)
  | goodbye (ipk : Nat)
  | serverModelInstanceP (ipk : Nat)
  | serverModelInventoryItemP (amount : Nat)
  | moveRoomsP (roomId : Nat)
  deriving DecidableEq, Repr

/-- One connection's identity and outbound queue (`self.outgoing`). -/
structure ConnOut where
  pk : Nat
  outgoing : List Packet
  deriving DecidableEq, Repr

/-- Modelled from the spec: `server.broadcast_to_room` is in the server module,
which is not under `src/`.  Glossary: "Broadcast: enqueue a message onto the
outbound queue of every connection in a given room (optionally including the
sender)".  `conns` is the room's connections, `excluding` the excluded pks. -/
def broadcastToRoom (p : Packet) (conns : List ConnOut) (excluding : List Nat) : List ConnOut :=
  conns.map (fun c => if c.pk ∈ excluding then c else { c with outgoing := c.outgoing ++ [p] })

/-- A deferred-scheduler entry.  Modelled from the spec (§9): entries
`{due, period?, owner, fn}`; `callback` names the callback function,
`repeating` its re-arming flag, `argPk` the instance pk argument. -/
structure Deferred where
  callback : String
  dueTicks : Nat
  repeating : Bool
  argPk : Nat
  deriving DecidableEq, Repr

/-- Modelled from the spec: `server.add_deferred(fn, ticks, repeating, arg)`
registers a callback; `h` is the fresh entry handle it returns. -/
def addDeferred (ds : List (Nat × Deferred)) (h : Nat) (d : Deferred) :
    List (Nat × Deferred) :=
  ds ++ [(h, d)]

/-- Modelled from the spec: `server.remove_deferred(handle)` deregisters the
scheduler entry with that handle. -/
def removeDeferred (ds : List (Nat × Deferred)) (h : Nat) : List (Nat × Deferred) :=
  ds.filter (fun e => decide (e.1 ≠ h))

/-! ### `depart_other` (protocol.py lines 325-338) -/

/-- `MoonlapseProtocol.depart_other(p)`: `ipk` is the Goodbye packet's payload,
`srvInstances` is `self.server.instances`, `visible` is
`self.visible_instances`, `out` is `self.outgoing`.  Returns the new visible
set and outgoing queue. -/
def departOther (srvInstances : List (Nat × InstancedEntity))
    (visible : List InstancedEntity) (out : List Packet) (ipk : Nat) :
    List InstancedEntity × List Packet :=
  match srvInstances.lookup ipk with
  | none => (visible, out)
  | some inst =>
    let visible' := if inst ∈ visible then visible.erase inst else visible
    let out' := if inst.entity.typename = "Player"
      then out ++ [Packet.serverLog (inst.entity.name ++ " has departed.")]
      else out
    (visible', out' ++ [Packet.goodbye ipk])

/-! ### View engine (protocol.py lines 499-531 and 589-593) -/

/-- `MoonlapseProtocol.coord_in_view(y, x)` (lines 589-593): the 21×21 window
centred on the avatar. -/
def coordInView (py px y x : Int) : Bool :=
  decide ((py - 10 ≤ y ∧ y ≤ py + 10) ∧ (px - 10 ≤ x ∧ x ≤ px + 10))

/-- Modelled from the spec: `server.instances_in_room(room_id)` is in the
server module, not under `src/`; spec §2 describes "live instances keyed by
room", so it is the sub-map of `server.instances` whose instances are in the
given room. -/
def instancesInRoom (srvInstances : List (Nat × InstancedEntity)) (roomId : Nat) :
    List (Nat × InstancedEntity) :=
  srvInstances.filter (fun kv => decide (kv.2.roomId = roomId))

/-- `MoonlapseProtocol.process_visible_instances` (lines 499-531).
`protoLoggedIn pk` models `server.get_proto_by_id(pk)`: `none` when no
connection owns entity `pk`, `some b` when one does with `logged_in = b`
(the registry itself is in the server module, hence modelled from the spec
§9: "resolve which connection owns a Player via a small registry").
Returns the new `visible_instances` and the emitted diff packets. -/
def processVisibleInstances (srvInstances : List (Nat × InstancedEntity))
    (protoLoggedIn : Nat → Option Bool) (player : InstancedEntity)
    (prev : List InstancedEntity) : List InstancedEntity × List Packet :=
  let inView := (instancesInRoom srvInstances player.roomId).filterMap (fun kv =>
    if coordInView player.y player.x kv.2.y kv.2.x then
      if kv.2 ≠ player then some kv.2 else none
    else none)
  -- removing logged out players from view: a Player is kept exactly when a
  -- connection owns it and that connection is logged in
  -- (`if not proto or not proto.logged_in: remove`)
  let cur := inView.filter (fun i =>
    if i.entity.typename = "Player" then decide (protoLoggedIn i.entity.pk = some true)
    else true)
  let justLeft := prev.filter (fun i => decide (i ∉ cur))
  let newToView := cur.filter (fun i => decide (i ∉ prev))
  let alreadyIn := cur.filter (fun i => decide (i ∈ prev))
  (cur, justLeft.map (fun i => Packet.goodbye i.pk)
        ++ newToView.map (fun i => Packet.serverModelInstanceP i.pk)
        ++ alreadyIn.map (fun i => Packet.serverModelInstanceP i.pk))

/-! ### `chat` (protocol.py lines 224-233) -/

/-- Python `str.strip()`: drop leading and trailing whitespace. -/
def pyStrip (s : String) : String :=
  ⟨((s.data.dropWhile Char.isWhitespace).reverse.dropWhile Char.isWhitespace).reverse⟩

/-- `MoonlapseProtocol.chat(p)` (lines 224-233): `message` is the Chat
payload, `avatarName` is `self.player_instance.entity.name`, `roomConns` the
room's connections (the sender included), `logg` is `self.logger`'s line list.
`broadcast(..., include_self=True)` excludes nobody. -/
def chat (avatarName : String) (roomConns : List ConnOut) (logg : List String)
    (message : String) : List ConnOut × List String :=
  if pyStrip message ≠ "" then
    let m := avatarName ++ " says: " ++ message.take 80
    (broadcastToRoom (Packet.serverLog m) roomConns [], logg ++ [m])
  else (roomConns, logg)

/-! ### `add_item_to_inventory` (protocol.py lines 235-275)

The player's `InventoryItem` rows for the item being added are modelled as the
list of their `amount` fields in the deterministic iteration order of the
query set (creation order); the claims start from an empty inventory, so these
are the only rows of the player. -/

/-- The `for inv_item in inv_items` loop of `add_item_to_inventory`: skip
rows already at `max_stack_amt` (`continue`); on the first other row set it to
`min(max_stack_amt, amount+amt)` and compute
`leftover = max((amount+amt) - max_stack_amt, 0)` (Nat subtraction).  Returns
`none` when every row is full (the loop falls through), otherwise the updated
rows, the leftover and the updated row's new amount. -/
def topUpFirst (m amt : Nat) : List Nat → Option (List Nat × Nat × Nat)
  | [] => none
  | a :: rest =>
    if a = m then (topUpFirst m amt rest).map (fun r => (a :: r.1, r.2.1, r.2.2))
    else some ((min m (a + amt)) :: rest, (a + amt) - m, min m (a + amt))

/-- The `while leftover > 0` loop of `add_item_to_inventory`: on each pass, if
the player already has 30 rows, enqueue `Deny("Your inventory is full")` and
return the leftover; otherwise create a row of `min(max_stack_amt, leftover)`
and decrement the leftover.  `fuel` bounds the iteration count; every caller
passes `fuel = leftover`, which is enough whenever `max_stack_amt ≥ 1` since
each pass consumes at least one unit of leftover. -/
def fillRows (m : Nat) : Nat → List Nat → Nat → List Packet →
    List Nat × Nat × List Packet
  | fuel, inv, leftover, out =>
    if leftover = 0 then (inv, 0, out)
    else match fuel with
      | 0 => (inv, leftover, out)
      | fuel' + 1 =>
        if inv.length = 30 then
          (inv, leftover, out ++ [Packet.deny "Your inventory is full"])
        else
          let newAmt := min m leftover
          fillRows m fuel' (inv ++ [newAmt]) (leftover - newAmt)
            (out ++ [Packet.serverModelInventoryItemP newAmt])

/-- `MoonlapseProtocol.add_item_to_inventory(item, amt)` (lines 235-275) with
`m = item.max_stack_amt` and `inv` the player's rows for that item.  Returns
the new rows, the returned leftover, and the enqueued packets. -/
def addItemToInventory (m : Nat) (inv : List Nat) (amt : Nat) :
    List Nat × Nat × List Packet :=
  match topUpFirst m amt inv with
  | some (inv1, leftover, updatedAmt) =>
    fillRows m leftover inv1 leftover [Packet.serverModelInventoryItemP updatedAmt]
  | none =>
    if inv.length = 30 then (inv, amt, [Packet.deny "Your inventory is full"])
    else (inv ++ [amt], 0, [Packet.serverModelInventoryItemP amt])

/-- One `add_item_to_inventory` call threaded through an accumulator of
(rows, total returned leftover, all enqueued packets). -/
def addStep (m : Nat) (acc : List Nat × Nat × List Packet) (k : Nat) :
    List Nat × Nat × List Packet :=
  let r := addItemToInventory m acc.1 k
  (r.1, acc.2.1 + r.2.1, acc.2.2 ++ r.2.2)

/-- A sequence of `add_item_to_inventory` calls starting from an empty
inventory: returns the final rows, the total leftover returned to the callers,
and all enqueued packets. -/
def addSeq (m : Nat) (ks : List Nat) : List Nat × Nat × List Packet :=
  ks.foldl (addStep m) ([], 0, [])

/-! ### `kill_instance` (protocol.py lines 277-289) -/

/-- Result of `kill_instance`: the room's connections after the broadcast, the
live-instance map, the scheduler, the (possibly parked) instance and whether
it was deleted. -/
structure KillResult where
  conns : List ConnOut
  srvInstances : List (Nat × InstancedEntity)
  deferreds : List (Nat × Deferred)
  inst : InstancedEntity
  deleted : Bool
  deriving DecidableEq, Repr

/-- `MoonlapseProtocol.kill_instance(instance)` (lines 277-289).  The Python
`instance.y = OOB` mutates the object aliased inside `server.instances`, so
the map entry for `inst.pk` is updated in place; `freshHandle` is the handle
`add_deferred` assigns to the new scheduler entry. -/
def killInstance (tickrate freshHandle : Nat) (roomConns : List ConnOut)
    (srvInstances : List (Nat × InstancedEntity)) (ds : List (Nat × Deferred))
    (inst : InstancedEntity) : KillResult :=
  let conns := broadcastToRoom (Packet.goodbye inst.pk) roomConns []
  if inst.respawnTime ≠ 0 then
    let parked := { inst with y := OOB }
    { conns := conns
      srvInstances := srvInstances.map (fun kv => if kv.1 = inst.pk then (kv.1, parked) else kv)
      deferreds := addDeferred ds freshHandle
        ⟨"respawn_instance", inst.respawnTime * tickrate, false, inst.pk⟩
      inst := parked
      deleted := false }
  else
    { conns := conns
      srvInstances := srvInstances.filter (fun kv => decide (kv.1 ≠ inst.pk))
      deferreds := ds
      inst := inst
      deleted := true }

/-! ### `can_gather` / `attempt_gather` (protocol.py lines 340-352, 371-402) -/

/-- The `requirements` dict of `can_gather`: `OreNode → Pickaxe`,
`TreeNode → Axe` (these are the only typenames the callers pass). -/
def requiredTool (nodeTypename : String) : String :=
  if nodeTypename = "OreNode" then "Pickaxe" else "Axe"

/-- `MoonlapseProtocol.can_gather(node)` (lines 340-352): `invTypenames` are
the typenames of the items on the player's `InventoryItem` rows (the Django
filter is nonempty iff the required tool's typename is among them).  Returns
the boolean result and the packets it enqueues. -/
def canGather (invTypenames : List String) (nodeTypename : String) :
    Bool × List Packet :=
  let tool := requiredTool nodeTypename
  if tool ∈ invTypenames then (true, [])
  else (false, [Packet.serverLog ("You do not have a " ++ tool ++ ".")])

/-- Which branch of `attempt_gather` ran. -/
inductive GatherOutcome where
  | nodeGone
  | noTool
  | success
  | keepGoing
  deriving DecidableEq, Repr

/-- State after one `attempt_gather` tick. -/
structure GatherResult where
  actionloop : Option Nat
  deferreds : List (Nat × Deferred)
  out : List Packet
  outcome : GatherOutcome
  deriving DecidableEq, Repr

/-- `MoonlapseProtocol.attempt_gather(instance, node)` (lines 371-402), one
tick of the repeating gather callback.  `roll` is `random.randint(0, 5)`
(success exactly when it is 0); `actionloop` is `self.actionloop`, holding the
handle of this very callback in the scheduler `ds`.  On success the droptable
rolls, the `add_item_to_inventory` crediting and the `kill_instance` call
follow; they are driven by further randomness and are modelled by
`addItemToInventory` and `killInstance` separately, so the success branch here
records only the callback bookkeeping. -/
def attemptGather (roll : Nat) (inst : InstancedEntity) (nodeTypename : String)
    (invTypenames : List String) (actionloop : Option Nat)
    (ds : List (Nat × Deferred)) (out : List Packet) : GatherResult :=
  if inst.y = OOB then
    match actionloop with
    | some h => ⟨none, removeDeferred ds h, out, .nodeGone⟩
    | none => ⟨none, ds, out, .nodeGone⟩
  else
    match canGather invTypenames nodeTypename with
    | (false, logs) => ⟨actionloop, ds, out ++ logs, .noTool⟩
    | (true, _) =>
      if roll = 0 then
        match actionloop with
        | some h => ⟨none, removeDeferred ds h, out, .success⟩
        | none => ⟨none, ds, out, .success⟩
      else ⟨actionloop, ds, out ++ [Packet.serverLog "You continue gathering."], .keepGoing⟩

/-! ### `grab_item_here` (protocol.py lines 291-307) -/

/-- The typename test of `grab_item_here`'s loop:
`typename in ("Item", "Pickaxe", "Axe", "Ore", "Logs")`. -/
def grabbableTypename (t : String) : Bool :=
  t = "Item" || t = "Pickaxe" || t = "Axe" || t = "Ore" || t = "Logs"

/-- The `for i in self.visible_instances` scan of `grab_item_here`: the first
visible instance of a grabbable typename standing exactly on the player's
tile. -/
def findGrabTarget (py px : Int) : List InstancedEntity → Option InstancedEntity
  | [] => none
  | i :: rest =>
    if grabbableTypename i.entity.typename ∧ i.y = py ∧ i.x = px then some i
    else findGrabTarget py px rest

/-- State after `grab_item_here`. -/
structure GrabResult where
  target : Option InstancedEntity
  invRows : List Nat
  out : List Packet
  conns : List ConnOut
  srvInstances : List (Nat × InstancedEntity)
  deferreds : List (Nat × Deferred)
  actionloop : Option Nat
  deriving DecidableEq, Repr

/-- `MoonlapseProtocol.grab_item_here()` (lines 291-307).  `maxStackOf pk` is
`Item.objects.get(entity).max_stack_amt` for entity `pk`, `invRowsOf pk` the
player's rows for that item.  When leftover remains the instance's `amount`
is lowered in place (aliased in `server.instances`); otherwise the instance is
killed. -/
def grabItemHere (tickrate freshHandle : Nat) (maxStackOf : Nat → Nat)
    (invRowsOf : Nat → List Nat) (roomConns : List ConnOut)
    (srvInstances : List (Nat × InstancedEntity)) (ds : List (Nat × Deferred))
    (player : InstancedEntity) (visible : List InstancedEntity)
    (actionloop : Option Nat) : GrabResult :=
  match findGrabTarget player.y player.x visible with
  | none =>
    ⟨none, [], [Packet.deny "There is no item here."], roomConns, srvInstances,
      ds, actionloop⟩
  | some i =>
    let m := maxStackOf i.entity.pk
    let r := addItemToInventory m (invRowsOf i.entity.pk) i.amount
    if r.2.1 ≠ 0 then
      let iLess := { i with amount := r.2.1 }
      ⟨some i, r.1, r.2.2, roomConns,
        srvInstances.map (fun kv => if kv.1 = i.pk then (kv.1, iLess) else kv),
        ds, actionloop⟩
    else
      let k := killInstance tickrate freshHandle roomConns srvInstances ds i
      ⟨some i, r.1, r.2.2, k.conns, k.srvInstances, k.deferreds, actionloop⟩

/-! ### `drop_item` (protocol.py lines 309-323) -/

/-- State after `drop_item`. -/
structure DropResult where
  srvInstances : List (Nat × InstancedEntity)
  deferreds : List (Nat × Deferred)
  invItemDeleted : Bool
  newInstPk : Nat
  actionloop : Option Nat
  deriving DecidableEq, Repr

/-- `MoonlapseProtocol.drop_item(p)` (lines 309-323): the resolved
`InventoryItem` has entity `invItemEntity` and amount `invAmount`; a fresh
instance is placed on the player's tile (`inst.pk = id(inst)` is modelled by
the fresh pk), the row is deleted, and a one-shot despawn callback is
scheduled at `tickrate × 120` ticks. -/
def dropItem (tickrate freshPk freshHandle : Nat) (player : InstancedEntity)
    (invItemEntity : Entity) (invAmount : Nat)
    (srvInstances : List (Nat × InstancedEntity)) (ds : List (Nat × Deferred))
    (actionloop : Option Nat) : DropResult :=
  let inst : InstancedEntity :=
    ⟨freshPk, invItemEntity, player.roomId, player.y, player.x, invAmount, 0⟩
  { srvInstances := srvInstances ++ [(freshPk, inst)]
    deferreds := addDeferred ds freshHandle ⟨"despawn_instance", tickrate * 120, false, freshPk⟩
    invItemDeleted := true
    newInstPk := freshPk
    actionloop := actionloop }

/-! ### `logout` (protocol.py lines 184-204) -/

/-- State after `logout`. -/
structure LogoutResult where
  out : List Packet
  conns : List ConnOut
  loggedIn : Bool
  visible : List InstancedEntity
  actionloop : Option Nat
  deferreds : List (Nat × Deferred)
  deriving DecidableEq, Repr

/-- `MoonlapseProtocol.logout(p)` (lines 184-204): `pUsername` is the packet's
payload, `selfUsername` the connection's username, `playerInstance` its avatar
(if bound).  The Goodbye broadcast uses the default `include_self=False`, so
the connection's own pk `selfPk` is excluded. -/
def logout (selfUsername pUsername : String) (playerInstance : Option InstancedEntity)
    (selfPk : Nat) (roomConns : List ConnOut) (out : List Packet)
    (visible : List InstancedEntity) (loggedIn : Bool) (actionloop : Option Nat)
    (ds : List (Nat × Deferred)) : LogoutResult :=
  if pUsername = selfUsername then
    let out1 := out ++ [Packet.okP]
    let conns := match playerInstance with
      | some pi => broadcastToRoom (Packet.goodbye pi.pk) roomConns [selfPk]
      | none => roomConns
    match actionloop with
    | some h => ⟨out1, conns, false, [], none, removeDeferred ds h⟩
    | none => ⟨out1, conns, false, [], none, ds⟩
  else ⟨out, roomConns, loggedIn, visible, actionloop, ds⟩

/-! ### `move` (protocol.py lines 404-450) -/

/-- The loaded room map (`maps.Room`): `solidAt y x = true` models
`roommap.at('solid', y, x) != maps.NOTHING`. -/
structure RoomMap where
  height : Int
  width : Int
  solidAt : Int → Int → Bool

/-- The four `Move*` packet kinds. -/
inductive Dir where
  | moveUp
  | moveRight
  | moveDown
  | moveLeft
  deriving DecidableEq, Repr

/-- The desired destination computed from the direction (lines 414-425). -/
def destOf : Dir → Int → Int → Int × Int
  | .moveUp, y, x => (y - 1, x)
  | .moveRight, y, x => (y, x + 1)
  | .moveDown, y, x => (y + 1, x)
  | .moveLeft, y, x => (y, x - 1)

/-- Result of the `for instance in self.visible_instances` scan of `move`
(lines 427-441): either the loop completes (`fallthrough`, carrying the
player's position — which a same-room portal may already have changed — and
the final desired tile), or `move_rooms` was entered, or `start_gather` was
entered. -/
inductive ScanRes where
  | fallthrough (y x dy dx : Int)
  | roomChange (roomId : Nat) (y x : Int)
  | gatherHit (ipk : Nat) (y x : Int)
  deriving DecidableEq, Repr

/-- The scan loop of `move`.  A portal on the desired tile rewrites the
desired coordinates to its link target and immediately writes them into the
player's position (lines 431-434); if the link leaves the room, `move_rooms`
is called and `move` returns, else the loop continues with the new state.  An
`OreNode`/`TreeNode` on the desired tile starts gathering and returns.
`portals pk` is `Portal.objects.get(entity=...)` for entity `pk` (the row
exists for every Portal entity). -/
def scanLoop (portals : Nat → Portal) (curRoomId : Nat) :
    List InstancedEntity → Int → Int → Int → Int → ScanRes
  | [], y, x, dy, dx => .fallthrough y x dy dx
  | i :: rest, y, x, dy, dx =>
    if i.entity.typename = "Portal" ∧ i.y = dy ∧ i.x = dx then
      let portal := portals i.entity.pk
      if portal.linkedroom ≠ curRoomId then
        .roomChange portal.linkedroom portal.linkedy portal.linkedx
      else
        scanLoop portals curRoomId rest portal.linkedy portal.linkedx
          portal.linkedy portal.linkedx
    else if (i.entity.typename = "OreNode" ∨ i.entity.typename = "TreeNode")
        ∧ i.y = dy ∧ i.x = dx then
      .gatherHit i.pk y x
    else scanLoop portals curRoomId rest y x dy dx

/-- Which exit `move` took. -/
inductive MoveKind where
  | roomChangeK (roomId : Nat)
  | gatherK (ipk : Nat)
  | movedK
  | deniedK
  deriving DecidableEq, Repr

/-- State after `move`: the player's position, the packets `move` itself
enqueued, the action slot and scheduler after the entry cancellation, whether
every connection in the room recomputes its visible set, and the exit taken
(the `roomChangeK` and `gatherK` exits continue in `move_rooms` and
`start_gather`, which have their own effects). -/
structure MoveOut where
  y : Int
  x : Int
  out : List Packet
  actionloop : Option Nat
  deferreds : List (Nat × Deferred)
  recomputeRoom : Bool
  kind : MoveKind
  deriving DecidableEq, Repr

/-- `MoonlapseProtocol.move(p)` (lines 404-450). -/
def move (rm : RoomMap) (portals : Nat → Portal) (curRoomId : Nat)
    (visible : List InstancedEntity) (y x : Int) (dir : Dir)
    (actionloop : Option Nat) (ds : List (Nat × Deferred)) : MoveOut :=
  -- cancel the pending action callback (lines 410-412)
  let st := match actionloop with
    | some h => ((none : Option Nat), removeDeferred ds h)
    | none => (none, ds)
  let d := destOf dir y x
  match scanLoop portals curRoomId visible y x d.1 d.2 with
  | .roomChange r yy xx => ⟨yy, xx, [], st.1, st.2, false, .roomChangeK r⟩
  | .gatherHit ipk yy xx => ⟨yy, xx, [], st.1, st.2, false, .gatherK ipk⟩
  | .fallthrough yy xx dy dx =>
    if (0 ≤ dy ∧ dy < rm.height ∧ 0 ≤ dx ∧ dx < rm.width) ∧ rm.solidAt dy dx = false then
      ⟨dy, dx, [], st.1, st.2, true, .movedK⟩
    else
      ⟨yy, xx, [Packet.deny "Can't move there"], st.1, st.2, false, .deniedK⟩

/-! ### `register_user` (protocol.py lines 142-182) -/

/-- The persisted rows the registration path touches.  `users` holds the saved
usernames, `players` pairs a username with its entity pk, `banks` the
usernames owning a bank. -/
structure DB where
  users : List String
  entities : List Entity
  dbInstances : List InstancedEntity
  players : List (String × Nat)
  banks : List String
  deriving DecidableEq, Repr

/-- How `register_user` ended. -/
inductive RegOutcome where
  | denied
  | okOut
  | raised
  deriving DecidableEq, Repr

/-- `MoonlapseProtocol.register_user(p)` (lines 142-182).  `oversize` models
`user.save()` raising `DataError` (the row is then not persisted);
`initialRoom` is `Room.objects.first()`; `entityPk`/`instPk` are the primary
keys the saves assign.  When the initial room is missing, the code enqueues
`Deny` and then raises `ObjectDoesNotExist` — the already-saved user and
entity rows are not removed. -/
def registerUser (db : DB) (srvInstances : List (Nat × InstancedEntity))
    (username : String) (oversize : Bool) (initialRoom : Option Nat)
    (entityPk instPk : Nat) :
    DB × List (Nat × InstancedEntity) × List Packet × RegOutcome :=
  if username ∈ db.users then
    (db, srvInstances, [Packet.deny "Somebody else already goes by that name"], .denied)
  else if oversize then
    (db, srvInstances, [Packet.deny "Error. Value too long."], .denied)
  else
    let db1 := { db with users := db.users ++ [username] }
    let entity : Entity := ⟨entityPk, "Player", username⟩
    let db2 := { db1 with entities := db1.entities ++ [entity] }
    match initialRoom with
    | none =>
      (db2, srvInstances, [Packet.deny "Error. Please try again later."], .raised)
    | some room =>
      let inst : InstancedEntity := ⟨instPk, entity, room, 0, 0, 0, 0⟩
      let db3 := { db2 with
        dbInstances := db2.dbInstances ++ [inst]
        players := db2.players ++ [(username, entityPk)]
        banks := db2.banks ++ [username] }
      (db3, srvInstances ++ [(instPk, inst)], [Packet.okP], .okOut)

/-! ## Sample fixtures used by witnesses -/

/-- A sample player entity. -/
def bobEntity : Entity := ⟨1, "Player", "bob"⟩

/-- A sample live instance of `bobEntity` in room 0. -/
def bobI : InstancedEntity := ⟨1, bobEntity, 0, 0, 0, 0, 0⟩

/-! ## Claims -/

/-- C10: in the PLAY state, a `Goodbye(id)` whose id is not a key of the
server's live-instance map is silently dropped (nothing enqueued, visible set
unchanged); otherwise the referenced instance is removed from the visible set
if present, a ServerLog "`<name>` has departed." is additionally enqueued
exactly when the instance's typename is Player, and the Goodbye packet is
forwarded to the client. -/
theorem C10_goodbye_edge_cases (srvInstances : List (Nat × InstancedEntity))
    (visible : List InstancedEntity) (out : List Packet) (ipk : Nat)
    (hnd : visible.Nodup) :
    (srvInstances.lookup ipk = none →
      departOther srvInstances visible out ipk = (visible, out))
    ∧ (∀ inst, srvInstances.lookup ipk = some inst →
        inst ∉ (departOther srvInstances visible out ipk).1
        ∧ (∀ j ∈ visible, j ≠ inst → j ∈ (departOther srvInstances visible out ipk).1)
        ∧ (∀ j ∈ (departOther srvInstances visible out ipk).1, j ∈ visible)
        ∧ (departOther srvInstances visible out ipk).2
            = out ++ (if inst.entity.typename = "Player"
                then [Packet.serverLog (inst.entity.name ++ " has departed.")] else [])
              ++ [Packet.goodbye ipk]) := by
  constructor
  · intro hnone
    simp [departOther, hnone]
  · intro inst hsome
    have hdef : departOther srvInstances visible out ipk
        = (if inst ∈ visible then visible.erase inst else visible,
           (if inst.entity.typename = "Player"
             then out ++ [Packet.serverLog (inst.entity.name ++ " has departed.")]
             else out) ++ [Packet.goodbye ipk]) := by
      simp [departOther, hsome]
    rw [hdef]
    refine ⟨?_, ?_, ?_, ?_⟩
    · by_cases hmem : inst ∈ visible
      · rw [if_pos hmem]
        intro hcontra
        exact ((hnd.mem_erase_iff).mp hcontra).1 rfl
      · rw [if_neg hmem]
        exact hmem
    · intro j hj hne
      by_cases hmem : inst ∈ visible
      · rw [if_pos hmem]
        exact (hnd.mem_erase_iff).mpr ⟨hne, hj⟩
      · rw [if_neg hmem]
        exact hj
    · intro j hj
      by_cases hmem : inst ∈ visible
      · rw [if_pos hmem] at hj
        exact List.mem_of_mem_erase hj
      · rwa [if_neg hmem] at hj
    · by_cases ht : inst.entity.typename = "Player" <;> simp [ht]

/-- Witness for C10 at a concrete input: one live Player instance that is in
the visible set. -/
theorem C10_goodbye_edge_cases_witness :
    bobI ∉ (departOther [(1, bobI)] [bobI] [] 1).1
    ∧ (departOther [(1, bobI)] [bobI] [] 1).2
        = [] ++ (if bobI.entity.typename = "Player"
            then [Packet.serverLog (bobI.entity.name ++ " has departed.")] else [])
          ++ [Packet.goodbye 1] := by
  have h := (C10_goodbye_edge_cases [(1, bobI)] [bobI] [] 1 (by decide)).2 bobI (by decide)
  exact ⟨h.1, h.2.2.2⟩

/-- C5: a Chat message is trimmed; if the result is nonempty, a ServerLog
whose text is the avatar's name, " says: ", and the message body truncated to
80 characters is enqueued on every connection in the room (sender included)
and appended to the local log; a whitespace-only Chat produces no output. -/
theorem C5_chat_behaviour (avatarName : String) (roomConns : List ConnOut)
    (logg : List String) (message : String) :
    (pyStrip message ≠ "" →
      (chat avatarName roomConns logg message).1
        = roomConns.map (fun c =>
            { c with outgoing := c.outgoing
                ++ [Packet.serverLog (avatarName ++ " says: " ++ message.take 80)] })
      ∧ (chat avatarName roomConns logg message).2
          = logg ++ [avatarName ++ " says: " ++ message.take 80])
    ∧ (pyStrip message = "" →
        chat avatarName roomConns logg message = (roomConns, logg)) := by
  constructor
  · intro hne
    simp [chat, hne, broadcastToRoom]
  · intro heq
    simp [chat, heq]

set_option maxRecDepth 4000 in
/-- Witness for C5: the spec's S5 scenario, `Chat("x"×100)` from `ada`, one
connection in the room. -/
theorem C5_chat_behaviour_witness :
    (chat "ada" [⟨1, []⟩] [] ⟨List.replicate 100 'x'⟩).1
      = [⟨1, [Packet.serverLog ("ada says: " ++ ⟨List.replicate 80 'x'⟩)]⟩] := by
  have h := (C5_chat_behaviour "ada" [⟨1, []⟩] [] ⟨List.replicate 100 'x'⟩).1 (by decide)
  rw [h.1]
  decide

/-- C7: `kill_instance` broadcasts `Goodbye(instance_id)` to the room
including the initiator; then, if the instance's `respawn_time > 0`, its `y`
is set to the OOB sentinel (also inside the live map) and a one-shot respawn
callback is scheduled at `respawn_time × tickrate` ticks; otherwise the
instance is removed from the server's live-instance map and deleted. -/
theorem C7_kill_instance (tickrate freshHandle : Nat) (roomConns : List ConnOut)
    (srvInstances : List (Nat × InstancedEntity)) (ds : List (Nat × Deferred))
    (inst : InstancedEntity) :
    (killInstance tickrate freshHandle roomConns srvInstances ds inst).conns
      = roomConns.map (fun c =>
          { c with outgoing := c.outgoing ++ [Packet.goodbye inst.pk] })
    ∧ (inst.respawnTime ≠ 0 →
        (killInstance tickrate freshHandle roomConns srvInstances ds inst).inst.y = OOB
        ∧ (killInstance tickrate freshHandle roomConns srvInstances ds inst).deferreds
            = ds ++ [(freshHandle,
                ⟨"respawn_instance", inst.respawnTime * tickrate, false, inst.pk⟩)]
        ∧ (killInstance tickrate freshHandle roomConns srvInstances ds inst).deleted = false
        ∧ (∀ kv ∈ (killInstance tickrate freshHandle roomConns srvInstances ds inst).srvInstances,
            kv.1 = inst.pk → kv.2.y = OOB))
    ∧ (inst.respawnTime = 0 →
        (∀ kv ∈ (killInstance tickrate freshHandle roomConns srvInstances ds inst).srvInstances,
          kv.1 ≠ inst.pk)
        ∧ (killInstance tickrate freshHandle roomConns srvInstances ds inst).deleted = true
        ∧ (killInstance tickrate freshHandle roomConns srvInstances ds inst).deferreds = ds) := by
  refine ⟨?_, ?_, ?_⟩
  · by_cases h : inst.respawnTime = 0 <;> simp [killInstance, broadcastToRoom, h]
  · intro h
    have hd : killInstance tickrate freshHandle roomConns srvInstances ds inst
        = { conns := broadcastToRoom (Packet.goodbye inst.pk) roomConns []
            srvInstances := srvInstances.map (fun kv =>
              if kv.1 = inst.pk then (kv.1, { inst with y := OOB }) else kv)
            deferreds := addDeferred ds freshHandle
              ⟨"respawn_instance", inst.respawnTime * tickrate, false, inst.pk⟩
            inst := { inst with y := OOB }
            deleted := false } := by
      simp [killInstance, h]
    rw [hd]
    refine ⟨rfl, rfl, rfl, ?_⟩
    intro kv hkv hpk
    rcases List.mem_map.mp hkv with ⟨a, _, hfa⟩
    by_cases ha : a.1 = inst.pk
    · rw [if_pos ha] at hfa
      rw [← hfa]
    · rw [if_neg ha] at hfa
      rw [← hfa] at hpk
      exact absurd hpk ha
  · intro h
    have hd : killInstance tickrate freshHandle roomConns srvInstances ds inst
        = { conns := broadcastToRoom (Packet.goodbye inst.pk) roomConns []
            srvInstances := srvInstances.filter (fun kv => decide (kv.1 ≠ inst.pk))
            deferreds := ds
            inst := inst
            deleted := true } := by
      simp [killInstance, h]
    rw [hd]
    refine ⟨?_, rfl, rfl⟩
    intro kv hkv
    have hkv2 : kv ∈ srvInstances.filter (fun e => decide (e.1 ≠ inst.pk)) := hkv
    simp only [List.mem_filter, decide_eq_true_eq] at hkv2
    exact hkv2.2

/-- Witness for C7: a node with `respawn_time = 5` at tickrate 2. -/
theorem C7_kill_instance_witness :
    (killInstance 2 9 [] [] [] ⟨4, ⟨4, "OreNode", "rocks"⟩, 1, 3, 3, 1, 5⟩).inst.y = OOB
    ∧ (killInstance 2 9 [] [] [] ⟨4, ⟨4, "OreNode", "rocks"⟩, 1, 3, 3, 1, 5⟩).deferreds
        = [(9, ⟨"respawn_instance", 10, false, 4⟩)] := by
  have h := (C7_kill_instance 2 9 [] [] [] ⟨4, ⟨4, "OreNode", "rocks"⟩, 1, 3, 3, 1, 5⟩).2.1
    (by decide)
  exact ⟨h.1, h.2.1⟩

/-- Shared characterisation of the recomputed visible set: every member comes
from a live instance of the player's room, passes `coord_in_view`, is not the
player's own instance, and — when a Player — is owned by a logged-in
connection. -/
lemma processVisible_spec (srvInstances : List (Nat × InstancedEntity))
    (protoLoggedIn : Nat → Option Bool) (player : InstancedEntity)
    (prev : List InstancedEntity) :
    ∀ i ∈ (processVisibleInstances srvInstances protoLoggedIn player prev).1,
      (∃ kv ∈ srvInstances, kv.2 = i)
      ∧ i.roomId = player.roomId
      ∧ coordInView player.y player.x i.y i.x = true
      ∧ i ≠ player
      ∧ (i.entity.typename = "Player" → protoLoggedIn i.entity.pk = some true) := by
  intro i hi
  have hi2 : i ∈ ((instancesInRoom srvInstances player.roomId).filterMap (fun kv =>
      if coordInView player.y player.x kv.2.y kv.2.x then
        if kv.2 ≠ player then some kv.2 else none
      else none)).filter (fun j =>
        if j.entity.typename = "Player" then decide (protoLoggedIn j.entity.pk = some true)
        else true) := hi
  rw [List.mem_filter] at hi2
  obtain ⟨hin, hpl⟩ := hi2
  rw [List.mem_filterMap] at hin
  obtain ⟨kv, hkv, hf⟩ := hin
  rw [instancesInRoom, List.mem_filter] at hkv
  obtain ⟨hmem, hroom⟩ := hkv
  split at hf
  case isTrue hcv =>
    split at hf
    case isTrue hne =>
      injection hf with hik
      cases hik
      refine ⟨⟨kv, hmem, rfl⟩, of_decide_eq_true hroom, hcv, hne, ?_⟩
      intro ht
      rw [if_pos ht] at hpl
      exact of_decide_eq_true hpl
    case isFalse hne => exact absurd hf (by simp)
  case isFalse hcv => exact absurd hf (by simp)

/-- C4: after every recompute, each member of `visible_instances` is a live
instance of the connection's current room, satisfies `|Δy| ≤ 10 ∧ |Δx| ≤ 10`
relative to the avatar, is not the avatar's own instance, and — when a Player
instance — its owning connection exists and is currently logged in. -/
theorem C4_visible_set_invariant (srvInstances : List (Nat × InstancedEntity))
    (protoLoggedIn : Nat → Option Bool) (player : InstancedEntity)
    (prev : List InstancedEntity) :
    ∀ i ∈ (processVisibleInstances srvInstances protoLoggedIn player prev).1,
      ((∃ kv ∈ srvInstances, kv.2 = i) ∧ i.roomId = player.roomId)
      ∧ (|i.y - player.y| ≤ 10 ∧ |i.x - player.x| ≤ 10)
      ∧ i ≠ player
      ∧ (i.entity.typename = "Player" → protoLoggedIn i.entity.pk = some true) := by
  intro i hi
  obtain ⟨hlive, hroom, hcv, hne, hplayer⟩ :=
    processVisible_spec srvInstances protoLoggedIn player prev i hi
  have hb := of_decide_eq_true hcv
  exact ⟨⟨hlive, hroom⟩,
    ⟨abs_le.mpr ⟨by omega, by omega⟩, abs_le.mpr ⟨by omega, by omega⟩⟩, hne, hplayer⟩

/-- Witness for C4: a player at the origin of room 0 with one in-range rock
instance live in the same room. -/
theorem C4_visible_set_invariant_witness :
    ((∃ kv ∈ [(1, bobI), (2, (⟨2, ⟨2, "Item", "rock"⟩, 0, 3, 3, 1, 0⟩ : InstancedEntity))],
        kv.2 = (⟨2, ⟨2, "Item", "rock"⟩, 0, 3, 3, 1, 0⟩ : InstancedEntity))
      ∧ (⟨2, ⟨2, "Item", "rock"⟩, 0, 3, 3, 1, 0⟩ : InstancedEntity).roomId = bobI.roomId)
    ∧ (|(⟨2, ⟨2, "Item", "rock"⟩, 0, 3, 3, 1, 0⟩ : InstancedEntity).y - bobI.y| ≤ 10
      ∧ |(⟨2, ⟨2, "Item", "rock"⟩, 0, 3, 3, 1, 0⟩ : InstancedEntity).x - bobI.x| ≤ 10)
    ∧ (⟨2, ⟨2, "Item", "rock"⟩, 0, 3, 3, 1, 0⟩ : InstancedEntity) ≠ bobI
    ∧ ((⟨2, ⟨2, "Item", "rock"⟩, 0, 3, 3, 1, 0⟩ : InstancedEntity).entity.typename = "Player" →
        (fun _ => (none : Option Bool)) (⟨2, ⟨2, "Item", "rock"⟩, 0, 3, 3, 1, 0⟩ :
          InstancedEntity).entity.pk = some true) :=
  C4_visible_set_invariant
    [(1, bobI), (2, ⟨2, ⟨2, "Item", "rock"⟩, 0, 3, 3, 1, 0⟩)]
    (fun _ => none) bobI [] ⟨2, ⟨2, "Item", "rock"⟩, 0, 3, 3, 1, 0⟩ (by decide)

/-- The grab scan of `grab_item_here` only returns an instance standing
exactly on the player's tile (and of a grabbable typename). -/
lemma findGrabTarget_on_tile (py px : Int) (visible : List InstancedEntity)
    (i : InstancedEntity) (h : findGrabTarget py px visible = some i) :
    i.y = py ∧ i.x = px := by
  induction visible with
  | nil => simp [findGrabTarget] at h
  | cons a rest ih =>
    rw [findGrabTarget] at h
    split at h
    case isTrue hc =>
      injection h with h2
      cases h2
      exact ⟨hc.2.1, hc.2.2⟩
    case isFalse hc => exact ih h

/-- `grab_item_here` acts on exactly the instance the visible-set scan
returns. -/
lemma grabItemHere_target (tickrate freshHandle : Nat) (maxStackOf : Nat → Nat)
    (invRowsOf : Nat → List Nat) (roomConns : List ConnOut)
    (srvInstances : List (Nat × InstancedEntity)) (ds : List (Nat × Deferred))
    (player : InstancedEntity) (visible : List InstancedEntity)
    (al : Option Nat) :
    (grabItemHere tickrate freshHandle maxStackOf invRowsOf roomConns srvInstances
        ds player visible al).target
      = findGrabTarget player.y player.x visible := by
  unfold grabItemHere
  cases h : findGrabTarget player.y player.x visible with
  | none => rfl
  | some i =>
    simp only []
    split <;> rfl

/-- C9: with the avatar at a valid position (`y ≥ 0`, `x ≥ 0`), no instance
parked at `y = OOB` is ever in the visible set after a recompute, and no such
instance can be the one `grab_item_here` acts on (it only scans the visible
set for an instance on the avatar's own tile). -/
theorem C9_oob_invisible (srvInstances : List (Nat × InstancedEntity))
    (protoLoggedIn : Nat → Option Bool) (player : InstancedEntity)
    (prev visible : List InstancedEntity)
    (hy : 0 ≤ player.y) (_hx : 0 ≤ player.x) :
    (∀ i ∈ (processVisibleInstances srvInstances protoLoggedIn player prev).1, i.y ≠ OOB)
    ∧ (∀ (tickrate freshHandle : Nat) (maxStackOf : Nat → Nat)
        (invRowsOf : Nat → List Nat) (roomConns : List ConnOut)
        (ds : List (Nat × Deferred)) (al : Option Nat) (i : InstancedEntity),
        (grabItemHere tickrate freshHandle maxStackOf invRowsOf roomConns
            srvInstances ds player visible al).target = some i → i.y ≠ OOB) := by
  constructor
  · intro i hi
    obtain ⟨_, _, hcv, _, _⟩ :=
      processVisible_spec srvInstances protoLoggedIn player prev i hi
    have hb := of_decide_eq_true hcv
    rw [OOB]
    omega
  · intro tickrate freshHandle maxStackOf invRowsOf roomConns ds al i htgt
    rw [grabItemHere_target] at htgt
    have := findGrabTarget_on_tile player.y player.x visible i htgt
    rw [OOB]
    omega

/-- Witness for C9: avatar at `(0,0)`; an OOB-parked ore instance is in the
room but not in the recomputed visible set, and the grab scan over an
OOB-parked instance finds nothing. -/
theorem C9_oob_invisible_witness :
    (∀ i ∈ (processVisibleInstances
        [(1, bobI), (4, (⟨4, ⟨4, "Ore", "ore"⟩, 0, OOB, 3, 1, 5⟩ : InstancedEntity))]
        (fun _ => none) bobI []).1, i.y ≠ OOB)
    ∧ (∀ (tickrate freshHandle : Nat) (maxStackOf : Nat → Nat)
        (invRowsOf : Nat → List Nat) (roomConns : List ConnOut)
        (ds : List (Nat × Deferred)) (al : Option Nat) (i : InstancedEntity),
        (grabItemHere tickrate freshHandle maxStackOf invRowsOf roomConns
            [(1, bobI), (4, ⟨4, ⟨4, "Ore", "ore"⟩, 0, OOB, 3, 1, 5⟩)] ds bobI
            [⟨4, ⟨4, "Ore", "ore"⟩, 0, OOB, 3, 1, 5⟩] al).target = some i → i.y ≠ OOB) :=
  C9_oob_invisible
    [(1, bobI), (4, ⟨4, ⟨4, "Ore", "ore"⟩, 0, OOB, 3, 1, 5⟩)]
    (fun _ => none) bobI [] [⟨4, ⟨4, "Ore", "ore"⟩, 0, OOB, 3, 1, 5⟩]
    (by decide) (by decide)

/-- C1 counterexample: registering `ada` against an empty database when the
persistence layer has no initial room enqueues `Deny`, yet the User row and
the Entity row saved earlier in that same attempt persist — the registration
is aborted but not rolled back. -/
theorem C1_counterexample :
    (registerUser ⟨[], [], [], [], []⟩ [] "ada" false none 1 2).2.2.1
      = [Packet.deny "Error. Please try again later."]
    ∧ (registerUser ⟨[], [], [], [], []⟩ [] "ada" false none 1 2).1.users = ["ada"]
    ∧ (registerUser ⟨[], [], [], [], []⟩ [] "ada" false none 1 2).1.entities
        = [⟨1, "Player", "ada"⟩] := by decide

/-- C1 as amended: when a field is oversize (the User save fails), `Deny` is
enqueued and nothing persists; when the persistence layer has no initial
room, `Deny` is enqueued and the registration is aborted — no
InstancedEntity, Player or Bank persists and nothing reaches the live map —
but the User and Entity rows saved earlier in the attempt do persist. -/
theorem C1_registration_abort (db : DB) (srvInstances : List (Nat × InstancedEntity))
    (username : String) (entityPk instPk : Nat) (hu : username ∉ db.users) :
    ((registerUser db srvInstances username false none entityPk instPk).2.2.1
        = [Packet.deny "Error. Please try again later."]
      ∧ (registerUser db srvInstances username false none entityPk instPk).2.2.2 = .raised
      ∧ (registerUser db srvInstances username false none entityPk instPk).1.dbInstances
          = db.dbInstances
      ∧ (registerUser db srvInstances username false none entityPk instPk).1.players
          = db.players
      ∧ (registerUser db srvInstances username false none entityPk instPk).1.banks
          = db.banks
      ∧ (registerUser db srvInstances username false none entityPk instPk).2.1
          = srvInstances
      ∧ (registerUser db srvInstances username false none entityPk instPk).1.users
          = db.users ++ [username]
      ∧ (registerUser db srvInstances username false none entityPk instPk).1.entities
          = db.entities ++ [⟨entityPk, "Player", username⟩])
    ∧ (∀ room : Option Nat,
        registerUser db srvInstances username true room entityPk instPk
          = (db, srvInstances, [Packet.deny "Error. Value too long."], .denied)) := by
  constructor
  · simp [registerUser, hu]
  · intro room
    simp [registerUser, hu]

/-- Witness for C1: `ada` against an empty database. -/
theorem C1_registration_abort_witness :
    (registerUser ⟨[], [], [], [], []⟩ [] "ada" false none 1 2).1.players = []
    ∧ registerUser ⟨[], [], [], [], []⟩ [] "ada" true (some 0) 1 2
        = (⟨[], [], [], [], []⟩, [], [Packet.deny "Error. Value too long."], .denied) := by
  have h := C1_registration_abort ⟨[], [], [], [], []⟩ [] "ada" 1 2 (by decide)
  exact ⟨h.1.2.2.2.1, h.2 (some 0)⟩

/-- C6 counterexample: a gather tick with the required tool missing emits the
informing ServerLog but leaves `self.actionloop` set and the repeating
scheduler entry registered — the callback does not remove itself, so the
gather attempt recurs on later ticks. -/
theorem C6_counterexample :
    attemptGather 3 ⟨5, ⟨5, "OreNode", "rocks"⟩, 1, 2, 2, 1, 10⟩ "OreNode" [] (some 7)
        [(7, ⟨"attempt_gather", 1, true, 5⟩)] []
      = ⟨some 7, [(7, ⟨"attempt_gather", 1, true, 5⟩)],
          [Packet.serverLog "You do not have a Pickaxe."], .noTool⟩ := by decide

/-- C6 as amended: on a gather tick where the connection no longer holds the
required tool, a ServerLog informing the user is emitted and the callback
returns without success, but it does not remove itself — the action slot and
the scheduler are unchanged, so the attempt recurs on later ticks until the
loop is cancelled elsewhere (node death, movement, logout). -/
theorem C6_gather_no_tool (roll : Nat) (inst : InstancedEntity)
    (nodeTypename : String) (invTypenames : List String) (al : Option Nat)
    (ds : List (Nat × Deferred)) (out : List Packet)
    (hy : inst.y ≠ OOB) (htool : requiredTool nodeTypename ∉ invTypenames) :
    attemptGather roll inst nodeTypename invTypenames al ds out
      = ⟨al, ds,
          out ++ [Packet.serverLog ("You do not have a " ++ requiredTool nodeTypename ++ ".")],
          .noTool⟩ := by
  simp [attemptGather, canGather, hy, htool]

/-- Witness for C6: chopping a tree with no Axe in the inventory. -/
theorem C6_gather_no_tool_witness :
    attemptGather 2 ⟨6, ⟨6, "TreeNode", "tree"⟩, 1, 4, 4, 1, 8⟩ "TreeNode" ["Pickaxe"]
        (some 9) [(9, ⟨"attempt_gather", 1, true, 6⟩)] []
      = ⟨some 9, [(9, ⟨"attempt_gather", 1, true, 6⟩)],
          [] ++ [Packet.serverLog ("You do not have a " ++ requiredTool "TreeNode" ++ ".")],
          .noTool⟩ :=
  C6_gather_no_tool 2 ⟨6, ⟨6, "TreeNode", "tree"⟩, 1, 4, 4, 1, 8⟩ "TreeNode" ["Pickaxe"]
    (some 9) [(9, ⟨"attempt_gather", 1, true, 6⟩)] [] (by decide) (by decide)

/-- `kill_instance` never removes scheduler entries. -/
lemma killInstance_deferreds_mono (tickrate freshHandle : Nat)
    (roomConns : List ConnOut) (srvInstances : List (Nat × InstancedEntity))
    (ds : List (Nat × Deferred)) (inst : InstancedEntity) (hd : Nat × Deferred)
    (h : hd ∈ ds) :
    hd ∈ (killInstance tickrate freshHandle roomConns srvInstances ds inst).deferreds := by
  unfold killInstance
  split
  · simpa [addDeferred] using Or.inl h
  · simpa using h

/-- C8 counterexample: `drop_item` with an active gather callback leaves the
connection's action slot set and the callback's scheduler entry registered —
the drop does not cancel the gather action. -/
theorem C8_counterexample :
    (dropItem 2 50 8 bobI ⟨9, "Item", "apple"⟩ 3 []
        [(7, ⟨"attempt_gather", 1, true, 5⟩)] (some 7)).actionloop = some 7
    ∧ (7, (⟨"attempt_gather", 1, true, 5⟩ : Deferred)) ∈ (dropItem 2 50 8 bobI
        ⟨9, "Item", "apple"⟩ 3 [] [(7, ⟨"attempt_gather", 1, true, 5⟩)]
        (some 7)).deferreds := by decide

/-- C8 as amended: movement and logout cancel the connection's active gather
callback (clear the action slot and deregister the scheduler entry) before
the operation resolves, but item drop and item pickup do not — they leave the
action slot and the entry untouched. -/
theorem C8_action_cancellation (rm : RoomMap) (portals : Nat → Portal)
    (curRoomId : Nat) (visible : List InstancedEntity) (y x : Int) (dir : Dir)
    (h : Nat) (ds : List (Nat × Deferred)) (selfUsername : String)
    (pi : Option InstancedEntity) (selfPk : Nat) (roomConns : List ConnOut)
    (out : List Packet) (visible2 : List InstancedEntity) (li : Bool)
    (tickrate freshPk freshHandle : Nat) (player : InstancedEntity) (e : Entity)
    (amt : Nat) (srvInstances : List (Nat × InstancedEntity)) (al : Option Nat)
    (maxStackOf : Nat → Nat) (invRowsOf : Nat → List Nat) :
    ((move rm portals curRoomId visible y x dir (some h) ds).actionloop = none
      ∧ (move rm portals curRoomId visible y x dir (some h) ds).deferreds
          = removeDeferred ds h)
    ∧ ((logout selfUsername selfUsername pi selfPk roomConns out visible2 li
          (some h) ds).actionloop = none
      ∧ (logout selfUsername selfUsername pi selfPk roomConns out visible2 li
          (some h) ds).deferreds = removeDeferred ds h)
    ∧ ((dropItem tickrate freshPk freshHandle player e amt srvInstances ds al).actionloop
          = al
      ∧ ∀ hd ∈ ds, hd ∈ (dropItem tickrate freshPk freshHandle player e amt
          srvInstances ds al).deferreds)
    ∧ ((grabItemHere tickrate freshHandle maxStackOf invRowsOf roomConns srvInstances
          ds player visible2 al).actionloop = al
      ∧ ∀ hd ∈ ds, hd ∈ (grabItemHere tickrate freshHandle maxStackOf invRowsOf
          roomConns srvInstances ds player visible2 al).deferreds) := by
  refine ⟨⟨?_, ?_⟩, ⟨?_, ?_⟩, ⟨?_, ?_⟩, ⟨?_, ?_⟩⟩
  · simp only [move]
    split <;> first | rfl | (split <;> rfl)
  · simp only [move]
    split <;> first | rfl | (split <;> rfl)
  · simp [logout]
  · simp [logout]
  · rfl
  · intro hd hmem
    simp [dropItem, addDeferred]
    exact Or.inl hmem
  · simp only [grabItemHere]
    split
    · rfl
    · split <;> rfl
  · intro hd hmem
    simp only [grabItemHere]
    split
    · exact hmem
    · split
      · exact hmem
      · exact killInstance_deferreds_mono _ _ _ _ _ _ _ hmem

/-- Witness for C8 at concrete inputs (trivial hypotheses only come from the
universally quantified statement, instantiated here). -/
theorem C8_action_cancellation_witness :
    (move ⟨10, 10, fun _ _ => false⟩ (fun _ => ⟨0, 0, 0⟩) 0 [] 0 0 .moveRight (some 7)
        [(7, ⟨"attempt_gather", 1, true, 5⟩)]).actionloop = none
    ∧ (grabItemHere 2 8 (fun _ => 5) (fun _ => []) [] [] [(7, ⟨"attempt_gather", 1, true, 5⟩)]
        bobI [] (some 7)).actionloop = some 7 := by
  have h := C8_action_cancellation ⟨10, 10, fun _ _ => false⟩ (fun _ => ⟨0, 0, 0⟩) 0 [] 0 0
    .moveRight 7 [(7, ⟨"attempt_gather", 1, true, 5⟩)] "bob" none 1 [] [] [] false
    2 50 8 bobI ⟨9, "Item", "apple"⟩ 3 [] (some 7) (fun _ => 5) (fun _ => [])
  exact ⟨h.1.1, h.2.2.2.1⟩

/-- The visible-set scan of `move` falls through unchanged when no visible
portal or resource node sits on the desired tile. -/
lemma scanLoop_no_hit (portals : Nat → Portal) (curRoomId : Nat)
    (visible : List InstancedEntity) (y x dy dx : Int)
    (h : ∀ i ∈ visible,
      ¬(i.entity.typename = "Portal" ∧ i.y = dy ∧ i.x = dx)
      ∧ ¬((i.entity.typename = "OreNode" ∨ i.entity.typename = "TreeNode")
          ∧ i.y = dy ∧ i.x = dx)) :
    scanLoop portals curRoomId visible y x dy dx = .fallthrough y x dy dx := by
  induction visible with
  | nil => rfl
  | cons a rest ih =>
    have ha := h a (List.mem_cons_self a rest)
    rw [scanLoop, if_neg ha.1, if_neg ha.2]
    exact ih (fun i hi => h i (List.mem_cons_of_mem a hi))

/-- C3 counterexample: moving right into a same-room portal whose link target
`(2,2)` is a solid tile.  `Deny("Can't move there")` is enqueued, but the
avatar's position has already been changed to the portal target `(2,2)` — it
is not unchanged as the claim states. -/
theorem C3_counterexample :
    (move ⟨10, 10, fun py px => decide (py = 2 ∧ px = 2)⟩ (fun _ => ⟨1, 2, 2⟩) 1
        [⟨3, ⟨3, "Portal", "portal"⟩, 1, 0, 1, 0, 0⟩] 0 0 .moveRight none []).out
      = [Packet.deny "Can't move there"]
    ∧ ¬((move ⟨10, 10, fun py px => decide (py = 2 ∧ px = 2)⟩ (fun _ => ⟨1, 2, 2⟩) 1
        [⟨3, ⟨3, "Portal", "portal"⟩, 1, 0, 1, 0, 0⟩] 0 0 .moveRight none []).y = 0
      ∧ (move ⟨10, 10, fun py px => decide (py = 2 ∧ px = 2)⟩ (fun _ => ⟨1, 2, 2⟩) 1
        [⟨3, ⟨3, "Portal", "portal"⟩, 1, 0, 1, 0, 0⟩] 0 0 .moveRight none []).x = 0) := by
  decide

/-- C3 as amended: for every `Move*` whose desired destination tile carries no
visible portal or resource node, if that destination is out of bounds
(`y<0 ∨ x<0 ∨ y≥height ∨ x≥width`) or solid, the server enqueues
`Deny("Can't move there")` and the avatar's position is unchanged.  (When a
same-room portal redirects the move, the avatar's position is instead already
set to the portal target before the placement check, as the counterexample
shows.) -/
theorem C3_move_boundary (rm : RoomMap) (portals : Nat → Portal) (curRoomId : Nat)
    (visible : List InstancedEntity) (y x : Int) (dir : Dir) (al : Option Nat)
    (ds : List (Nat × Deferred))
    (hclear : ∀ i ∈ visible,
      ¬(i.entity.typename = "Portal" ∧ i.y = (destOf dir y x).1 ∧ i.x = (destOf dir y x).2)
      ∧ ¬((i.entity.typename = "OreNode" ∨ i.entity.typename = "TreeNode")
          ∧ i.y = (destOf dir y x).1 ∧ i.x = (destOf dir y x).2))
    (hbad : ¬((0 ≤ (destOf dir y x).1 ∧ (destOf dir y x).1 < rm.height
        ∧ 0 ≤ (destOf dir y x).2 ∧ (destOf dir y x).2 < rm.width)
        ∧ rm.solidAt (destOf dir y x).1 (destOf dir y x).2 = false)) :
    (move rm portals curRoomId visible y x dir al ds).out
      = [Packet.deny "Can't move there"]
    ∧ (move rm portals curRoomId visible y x dir al ds).y = y
    ∧ (move rm portals curRoomId visible y x dir al ds).x = x
    ∧ (move rm portals curRoomId visible y x dir al ds).kind = .deniedK := by
  have hs := scanLoop_no_hit portals curRoomId visible y x
    (destOf dir y x).1 (destOf dir y x).2 hclear
  cases al <;> simp [move, hs, hbad]

/-- Witness for C3: the spec's S2 wall bounce — `MoveRight` from `(0,0)` with
the neighbour `(0,1)` solid, nothing visible. -/
theorem C3_move_boundary_witness :
    (move ⟨10, 10, fun py px => decide (py = 0 ∧ px = 1)⟩ (fun _ => ⟨0, 0, 0⟩) 0 []
        0 0 .moveRight none []).out = [Packet.deny "Can't move there"]
    ∧ (move ⟨10, 10, fun py px => decide (py = 0 ∧ px = 1)⟩ (fun _ => ⟨0, 0, 0⟩) 0 []
        0 0 .moveRight none []).y = 0
    ∧ (move ⟨10, 10, fun py px => decide (py = 0 ∧ px = 1)⟩ (fun _ => ⟨0, 0, 0⟩) 0 []
        0 0 .moveRight none []).x = 0
    ∧ (move ⟨10, 10, fun py px => decide (py = 0 ∧ px = 1)⟩ (fun _ => ⟨0, 0, 0⟩) 0 []
        0 0 .moveRight none []).kind = .deniedK :=
  C3_move_boundary ⟨10, 10, fun py px => decide (py = 0 ∧ px = 1)⟩ (fun _ => ⟨0, 0, 0⟩) 0 []
    0 0 .moveRight none [] (by simp) (by decide)

/-! ### The stacking law (C2) -/

/-- The shape every reachable inventory has when only whole sub-stack amounts
of one item are added from empty: `q` full rows of `m` followed by one partial
row of `r` (absent when `r = 0`). -/
def stackShape (m q r : Nat) : List Nat :=
  List.replicate q m ++ (if r = 0 then [] else [r])

lemma stackShape_sum (m q r : Nat) : (stackShape m q r).sum = q * m + r := by
  unfold stackShape
  rw [List.sum_append, List.sum_replicate, smul_eq_mul]
  by_cases hr : r = 0 <;> simp [hr]

lemma stackShape_length (m q r : Nat) :
    (stackShape m q r).length = q + (if r = 0 then 0 else 1) := by
  unfold stackShape
  rw [List.length_append, List.length_replicate]
  by_cases hr : r = 0 <;> simp [hr]

/-- `q + ⌈r/m⌉`-style ceiling: the row count of `stackShape` is the ceiling of
its total divided by the stack size. -/
lemma stackShape_length_ceil (m q r : Nat) (hm : 1 ≤ m) (hr : r < m) :
    (stackShape m q r).length = (q * m + r + m - 1) / m := by
  rw [stackShape_length]
  by_cases hr0 : r = 0
  · rw [if_pos hr0, hr0]
    have h1 : q * m + 0 + m - 1 = (m - 1) + q * m := by omega
    rw [h1, Nat.add_mul_div_right _ _ (by omega : 0 < m),
      Nat.div_eq_of_lt (by omega : m - 1 < m)]
    omega
  · rw [if_neg hr0]
    have e1 : (q + 1) * m = q * m + m := Nat.succ_mul q m
    have h1 : q * m + r + m - 1 = (r - 1) + (q + 1) * m := by omega
    rw [h1, Nat.add_mul_div_right _ _ (by omega : 0 < m),
      Nat.div_eq_of_lt (by omega : r - 1 < m)]
    omega

/-- The row-scan of `add_item_to_inventory` skips a run of full rows. -/
lemma topUpFirst_replicate (m amt q : Nat) :
    topUpFirst m amt (List.replicate q m) = none := by
  induction q with
  | zero => rfl
  | succ n ih =>
    rw [List.replicate_succ, topUpFirst, if_pos rfl, ih]
    rfl

/-- The row-scan finds the trailing partial row after a run of full rows. -/
lemma topUpFirst_replicate_append (m amt q r : Nat) (hr : r ≠ m) :
    topUpFirst m amt (List.replicate q m ++ [r])
      = some (List.replicate q m ++ [min m (r + amt)], (r + amt) - m, min m (r + amt)) := by
  induction q with
  | zero => simp [topUpFirst, hr]
  | succ n ih =>
    rw [List.replicate_succ, List.cons_append, topUpFirst, if_pos rfl, ih]
    rfl

lemma fillRows_zero (m fuel : Nat) (inv : List Nat) (out : List Packet) :
    fillRows m fuel inv 0 out = (inv, 0, out) := by
  unfold fillRows
  simp

/-- One pass of the `while leftover > 0` loop when the inventory is full. -/
lemma fillRows_full (m fuel : Nat) (inv : List Nat) (l : Nat) (out : List Packet)
    (hl : l ≠ 0) (hinv : inv.length = 30) :
    fillRows m (fuel + 1) inv l out
      = (inv, l, out ++ [Packet.deny "Your inventory is full"]) := by
  unfold fillRows
  rw [if_neg hl]
  simp [hinv]

/-- One pass of the `while leftover > 0` loop that creates a final row of
`l ≤ m` and exits. -/
lemma fillRows_one (m fuel : Nat) (inv : List Nat) (l : Nat) (out : List Packet)
    (hl : l ≠ 0) (hlm : l ≤ m) (hinv : inv.length ≠ 30) :
    fillRows m (fuel + 1) inv l out
      = (inv ++ [l], 0, out ++ [Packet.serverModelInventoryItemP l]) := by
  unfold fillRows
  rw [if_neg hl]
  have hmin : min m l = l := min_eq_right hlm
  simp only [hinv, if_false, ite_false, hmin, Nat.sub_self]
  exact fillRows_zero m fuel (inv ++ [l]) _

/-- One `add_item_to_inventory` call on a stack-shaped inventory holding
`q·m + r`: the inventory stays stack-shaped, its total becomes
`min (old + k) (30m)`, the call returns exactly the excess over the 30-row
cap, and the "inventory is full" Deny is enqueued exactly when the cap is
exceeded. -/
lemma addItem_step (m q r k : Nat) (hm : 1 ≤ m) (hr : r < m) (hk1 : 1 ≤ k)
    (hkm : k ≤ m) (hq : q ≤ 30) (hq30 : q = 30 → r = 0) (hr29 : r ≠ 0 → q ≤ 29) :
    ∃ q' r', r' < m ∧ q' ≤ 30 ∧ (q' = 30 → r' = 0) ∧ (r' ≠ 0 → q' ≤ 29)
      ∧ q' * m + r' = min (q * m + r + k) (30 * m)
      ∧ (addItemToInventory m (stackShape m q r) k).1 = stackShape m q' r'
      ∧ (addItemToInventory m (stackShape m q r) k).2.1
          = (q * m + r + k) - min (q * m + r + k) (30 * m)
      ∧ (Packet.deny "Your inventory is full"
            ∈ (addItemToInventory m (stackShape m q r) k).2.2
          ↔ 30 * m < q * m + r + k) := by
  have e1 : (q + 1) * m = q * m + m := Nat.succ_mul q m
  have e4 : 29 * m + m = 30 * m := by ring
  by_cases hr0 : r = 0
  · subst hr0
    have hss : stackShape m q 0 = List.replicate q m := by simp [stackShape]
    by_cases h30 : q = 30
    · subst h30
      have hai : addItemToInventory m (stackShape m 30 0) k
          = (List.replicate 30 m, k, [Packet.deny "Your inventory is full"]) := by
        rw [hss]
        unfold addItemToInventory
        rw [topUpFirst_replicate]
        simp
      have h1 : (addItemToInventory m (stackShape m 30 0) k).1
          = List.replicate 30 m := by rw [hai]
      have h2 : (addItemToInventory m (stackShape m 30 0) k).2.1 = k := by rw [hai]
      have h3 : (addItemToInventory m (stackShape m 30 0) k).2.2
          = [Packet.deny "Your inventory is full"] := by rw [hai]
      refine ⟨30, 0, by omega, le_refl 30, fun _ => rfl, fun h => absurd rfl h,
        by omega, ?_, ?_, ?_⟩
      · rw [h1, hss]
      · rw [h2]
        omega
      · rw [h3]
        simp only [List.mem_singleton, true_iff]
        omega
    · have hq29 : q ≤ 29 := by omega
      have hb29 : q * m ≤ 29 * m := mul_le_mul_right' hq29 m
      have hai : addItemToInventory m (stackShape m q 0) k
          = (List.replicate q m ++ [k], 0, [Packet.serverModelInventoryItemP k]) := by
        rw [hss]
        unfold addItemToInventory
        rw [topUpFirst_replicate]
        simp [h30]
      have h1 : (addItemToInventory m (stackShape m q 0) k).1
          = List.replicate q m ++ [k] := by rw [hai]
      have h2 : (addItemToInventory m (stackShape m q 0) k).2.1 = 0 := by rw [hai]
      have h3 : (addItemToInventory m (stackShape m q 0) k).2.2
          = [Packet.serverModelInventoryItemP k] := by rw [hai]
      by_cases hkm' : k = m
      · refine ⟨q + 1, 0, by omega, by omega, by omega, by omega, by omega,
          ?_, ?_, ?_⟩
        · rw [h1]
          simp [stackShape, ← List.replicate_succ', hkm']
        · rw [h2]
          omega
        · rw [h3]
          simp only [List.mem_singleton]
          constructor
          · intro h
            exact absurd h (by simp)
          · intro h
            omega
      · refine ⟨q, k, by omega, by omega, by omega, by omega, by omega, ?_, ?_, ?_⟩
        · rw [h1]
          simp only [stackShape]
          rw [if_neg (by omega : ¬ k = 0)]
        · rw [h2]
          omega
        · rw [h3]
          simp only [List.mem_singleton]
          constructor
          · intro h
            exact absurd h (by simp)
          · intro h
            omega
  · have hq29 : q ≤ 29 := hr29 hr0
    have hb29 : q * m ≤ 29 * m := mul_le_mul_right' hq29 m
    have hss : stackShape m q r = List.replicate q m ++ [r] := by
      simp [stackShape, hr0]
    have hrm : r ≠ m := by omega
    have hai0 : addItemToInventory m (stackShape m q r) k
        = fillRows m ((r + k) - m) (List.replicate q m ++ [min m (r + k)]) ((r + k) - m)
            [Packet.serverModelInventoryItemP (min m (r + k))] := by
      rw [hss]
      unfold addItemToInventory
      rw [topUpFirst_replicate_append m k q r hrm]
    by_cases hrk : r + k ≤ m
    · have hl0 : (r + k) - m = 0 := by omega
      have hminrk : min m (r + k) = r + k := min_eq_right hrk
      have hai : addItemToInventory m (stackShape m q r) k
          = (List.replicate q m ++ [r + k], 0,
             [Packet.serverModelInventoryItemP (r + k)]) := by
        rw [hai0, hl0, hminrk, fillRows_zero]
      have h1 : (addItemToInventory m (stackShape m q r) k).1
          = List.replicate q m ++ [r + k] := by rw [hai]
      have h2 : (addItemToInventory m (stackShape m q r) k).2.1 = 0 := by rw [hai]
      have h3 : (addItemToInventory m (stackShape m q r) k).2.2
          = [Packet.serverModelInventoryItemP (r + k)] := by rw [hai]
      by_cases hrkm : r + k = m
      · refine ⟨q + 1, 0, by omega, by omega, by omega, by omega, by omega,
          ?_, ?_, ?_⟩
        · rw [h1]
          simp [stackShape, ← List.replicate_succ', hrkm]
        · rw [h2]
          omega
        · rw [h3]
          simp only [List.mem_singleton]
          constructor
          · intro h
            exact absurd h (by simp)
          · intro h
            omega
      · refine ⟨q, r + k, by omega, by omega, by omega, by omega, by omega,
          ?_, ?_, ?_⟩
        · rw [h1]
          simp only [stackShape]
          rw [if_neg (by omega : ¬ r + k = 0)]
        · rw [h2]
          omega
        · rw [h3]
          simp only [List.mem_singleton]
          constructor
          · intro h
            exact absurd h (by simp)
          · intro h
            omega
    · have hl1 : 1 ≤ (r + k) - m := by omega
      have hminrk : min m (r + k) = m := min_eq_left (by omega)
      have hshape1 : List.replicate q m ++ [min m (r + k)]
          = List.replicate (q + 1) m := by
        rw [hminrk, ← List.replicate_succ']
      obtain ⟨l', hl'⟩ : ∃ l', (r + k) - m = l' + 1 := ⟨(r + k) - m - 1, by omega⟩
      by_cases h29 : q = 29
      · subst h29
        have hai : addItemToInventory m (stackShape m 29 r) k
            = (List.replicate 30 m, (r + k) - m,
               [Packet.serverModelInventoryItemP m,
                Packet.deny "Your inventory is full"]) := by
          rw [hai0, hshape1, hminrk, hl']
          rw [fillRows_full m l' _ _ _ (by omega) (by simp)]
          rw [← hl']
          simp
        have h1 : (addItemToInventory m (stackShape m 29 r) k).1
            = List.replicate 30 m := by rw [hai]
        have h2 : (addItemToInventory m (stackShape m 29 r) k).2.1
            = (r + k) - m := by rw [hai]
        have h3 : (addItemToInventory m (stackShape m 29 r) k).2.2
            = [Packet.serverModelInventoryItemP m,
               Packet.deny "Your inventory is full"] := by rw [hai]
        refine ⟨30, 0, by omega, by omega, by omega, by omega, by omega,
          ?_, ?_, ?_⟩
        · rw [h1]
          simp [stackShape]
        · rw [h2]
          omega
        · rw [h3]
          constructor
          · intro _
            omega
          · intro _
            simp
      · have hq28 : q ≤ 28 := by omega
        have hb28 : (q + 1) * m ≤ 29 * m := mul_le_mul_right' (by omega) m
        have hai : addItemToInventory m (stackShape m q r) k
            = (List.replicate (q + 1) m ++ [(r + k) - m], 0,
               [Packet.serverModelInventoryItemP m,
                Packet.serverModelInventoryItemP ((r + k) - m)]) := by
          rw [hai0, hshape1, hminrk, hl']
          rw [fillRows_one m l' _ _ _ (by omega) (by omega) (by simp; omega)]
          rw [← hl']
          simp
        have h1 : (addItemToInventory m (stackShape m q r) k).1
            = List.replicate (q + 1) m ++ [(r + k) - m] := by rw [hai]
        have h2 : (addItemToInventory m (stackShape m q r) k).2.1 = 0 := by rw [hai]
        have h3 : (addItemToInventory m (stackShape m q r) k).2.2
            = [Packet.serverModelInventoryItemP m,
               Packet.serverModelInventoryItemP ((r + k) - m)] := by rw [hai]
        refine ⟨q + 1, (r + k) - m, by omega, by omega, by omega, by omega,
          by omega, ?_, ?_, ?_⟩
        · rw [h1]
          simp only [stackShape]
          rw [if_neg (by omega : ¬ (r + k) - m = 0)]
        · rw [h2]
          omega
        · rw [h3]
          constructor
          · intro h
            simp at h
          · intro h
            omega

/-- Folding a sequence of positive sub-stack adds over a stack-shaped
inventory keeps it stack-shaped; the stored total saturates at `30m`, the
excess is returned, and the Deny appears exactly when the cap is exceeded. -/
lemma addSeq_fold (m : Nat) (hm : 1 ≤ m) :
    ∀ (ks : List Nat), (∀ k ∈ ks, 1 ≤ k ∧ k ≤ m) →
    ∀ (q r L : Nat) (out : List Packet), r < m → q ≤ 30 → (q = 30 → r = 0) →
      (r ≠ 0 → q ≤ 29) →
    ∃ q' r', r' < m ∧ q' ≤ 30 ∧ (q' = 30 → r' = 0) ∧ (r' ≠ 0 → q' ≤ 29)
      ∧ q' * m + r' = min (q * m + r + ks.sum) (30 * m)
      ∧ (ks.foldl (addStep m) (stackShape m q r, L, out)).1 = stackShape m q' r'
      ∧ (ks.foldl (addStep m) (stackShape m q r, L, out)).2.1
          = L + ((q * m + r + ks.sum) - min (q * m + r + ks.sum) (30 * m))
      ∧ (Packet.deny "Your inventory is full"
            ∈ (ks.foldl (addStep m) (stackShape m q r, L, out)).2.2
          ↔ (Packet.deny "Your inventory is full" ∈ out
             ∨ 30 * m < q * m + r + ks.sum)) := by
  intro ks
  induction ks with
  | nil =>
    intro _ q r L out hr hq hq30 hr29
    have hle : q * m + r ≤ 30 * m := by
      by_cases h30 : q = 30
      · subst h30
        have := hq30 rfl
        omega
      · have hq29 : q ≤ 29 := by omega
        have hb : q * m ≤ 29 * m := mul_le_mul_right' hq29 m
        have e4 : 29 * m + m = 30 * m := by ring
        omega
    refine ⟨q, r, hr, hq, hq30, hr29, ?_, rfl, ?_, ?_⟩
    · simp only [List.sum_nil]
      omega
    · simp only [List.foldl_nil, List.sum_nil]
      omega
    · simp only [List.foldl_nil, List.sum_nil]
      constructor
      · intro h
        exact Or.inl h
      · intro h
        rcases h with h | h
        · exact h
        · exact absurd h (by omega)
  | cons k ks ih =>
    intro hks q r L out hr hq hq30 hr29
    have hk := hks k (List.mem_cons_self k ks)
    obtain ⟨q1, r1, hr1, hq1, hq130, hr129, hsum1, hshape1, hleft1, hdeny1⟩ :=
      addItem_step m q r k hm hr hk.1 hk.2 hq hq30 hr29
    have hstep : addStep m (stackShape m q r, L, out) k
        = (stackShape m q1 r1,
           L + ((q * m + r + k) - min (q * m + r + k) (30 * m)),
           out ++ (addItemToInventory m (stackShape m q r) k).2.2) := by
      simp only [addStep]
      rw [hshape1, hleft1]
    have hfold : (k :: ks).foldl (addStep m) (stackShape m q r, L, out)
        = ks.foldl (addStep m)
            (stackShape m q1 r1,
             L + ((q * m + r + k) - min (q * m + r + k) (30 * m)),
             out ++ (addItemToInventory m (stackShape m q r) k).2.2) := by
      rw [List.foldl_cons, hstep]
    obtain ⟨q', r', hr', hq', h30', h29', hsum', hshape', hleft', hdeny'⟩ :=
      ih (fun j hj => hks j (List.mem_cons_of_mem k hj)) q1 r1
        (L + ((q * m + r + k) - min (q * m + r + k) (30 * m)))
        (out ++ (addItemToInventory m (stackShape m q r) k).2.2)
        hr1 hq1 hq130 hr129
    refine ⟨q', r', hr', hq', h30', h29', ?_, ?_, ?_, ?_⟩
    · simp only [List.sum_cons]
      omega
    · rw [hfold, hshape']
    · rw [hfold, hleft']
      simp only [List.sum_cons]
      omega
    · rw [hfold, hdeny']
      rw [List.mem_append, hdeny1]
      simp only [List.sum_cons]
      constructor
      · rintro ((h | h) | h)
        · exact Or.inl h
        · right
          omega
        · right
          omega
      · rintro (h | h)
        · exact Or.inl (Or.inl h)
        · by_cases hc : 30 * m < q * m + r + k
          · exact Or.inl (Or.inr hc)
          · right
            omega

/-- C2 counterexample: with `max_stack_amt = 5`, the single call
`add_item_to_inventory(item, 0)` satisfies the claim's premise `k ≤
max_stack_amt`, yet it creates a row holding 0, so the row count is 1 while
`⌈amount_held / max_stack_amt⌉ = ⌈0/5⌉ = 0`. -/
theorem C2_counterexample :
    (∀ k ∈ [0], k ≤ 5)
    ∧ ¬ ((addSeq 5 [0]).1.length = ((addSeq 5 [0]).1.sum + 5 - 1) / 5) := by
  decide

/-- C2 as amended: for every sequence of `add_item_to_inventory(item, k_i)`
calls with `1 ≤ k_i ≤ max_stack_amt`, starting from an empty inventory and
totalling `K`, the sum of row amounts equals `min(K, 30 × max_stack_amt)`,
the row count equals `⌈amount_held / max_stack_amt⌉`, the total leftover
returned to the callers is exactly the excess `K − min(K, 30m)`, and
`Deny("Your inventory is full")` is enqueued iff the cap was exceeded. -/
theorem C2_stacking_law (m : Nat) (ks : List Nat) (hm : 1 ≤ m)
    (hks : ∀ k ∈ ks, 1 ≤ k ∧ k ≤ m) :
    (addSeq m ks).1.sum = min ks.sum (30 * m)
    ∧ (addSeq m ks).1.length = ((addSeq m ks).1.sum + m - 1) / m
    ∧ (addSeq m ks).2.1 = ks.sum - min ks.sum (30 * m)
    ∧ (Packet.deny "Your inventory is full" ∈ (addSeq m ks).2.2
        ↔ 30 * m < ks.sum) := by
  obtain ⟨q', r', hr', hq', h30', h29', hsum, hshape, hleft, hdeny⟩ :=
    addSeq_fold m hm ks hks 0 0 0 [] (by omega) (by omega) (by omega) (by omega)
  have hinit : stackShape m 0 0 = [] := by simp [stackShape]
  have haseq : addSeq m ks = ks.foldl (addStep m) (stackShape m 0 0, 0, []) := by
    rw [addSeq, hinit]
  simp only [Nat.zero_mul, Nat.zero_add] at hsum hleft hdeny
  refine ⟨?_, ?_, ?_, ?_⟩
  · rw [haseq, hshape, stackShape_sum]
    exact hsum
  · rw [haseq, hshape, stackShape_sum, stackShape_length_ceil m q' r' hm hr']
  · rw [haseq, hleft]
  · rw [haseq, hdeny]
    simp

/-- Witness for C2: `max_stack_amt = 5`, adds of 3 then 4 — one full row of 5
and a partial row of 2, nothing returned, no Deny. -/
theorem C2_stacking_law_witness :
    (addSeq 5 [3, 4]).1.sum = min ([3, 4].sum) (30 * 5)
    ∧ (addSeq 5 [3, 4]).1.length = ((addSeq 5 [3, 4]).1.sum + 5 - 1) / 5
    ∧ (addSeq 5 [3, 4]).2.1 = [3, 4].sum - min ([3, 4].sum) (30 * 5)
    ∧ (Packet.deny "Your inventory is full" ∈ (addSeq 5 [3, 4]).2.2
        ↔ 30 * 5 < [3, 4].sum) :=
  C2_stacking_law 5 [3, 4] (by decide) (by decide)

end Moonlight
